import Mathlib

/-
  Verification development for the tmdb presentation-layer repository.

  The data model and operations below are shallow embeddings of the
  TypeScript sources under src/ (config/properties.ts, the view
  components CastCard, Review, Avatar, MovieDetailBanner and its
  helpers).  JavaScript strings are embedded as lists of characters
  (`Str`), nullable values as `Option`, and JSX conditional children as
  `Option`-valued render results.
-/

/-- JavaScript strings, embedded as lists of characters. -/
abbrev Str := List Char

namespace Tmdb

/-! ## Image URL resolver

The resolver itself lives in `lib/api/multimedia-api`, which is not
among the supplied source files; only its call sites are.  It is
therefore modelled from the contract stated in the specification. -/

/-- Modelled from the spec: `normalize(p)` — the separator discipline of
the resolver contract, which demands exactly one slash between the size
variant and the path whether or not the path already starts with a
slash.  (`multimedia-api` is missing from the sources.) -/
def normalize (p : Str) : Str :=
  if p.head? = some '/' then p else '/' :: p

/-- Modelled from the spec: `resolve(path, sizeVariant, fallback)` of
the Image URL Resolver in `lib/api/multimedia-api`, which is missing
from the sources.  If the path is present (non-null, non-empty) it
returns `Host + "/" + sizeVariant + normalize(path)`; otherwise it
returns the fallback of the caller unchanged.  The image host is an
explicit argument because it is read from process configuration. -/
def resolve (host : Str) (path : Option Str) (sizeVariant : Str)
    (fallback : Option Str) : Option Str :=
  match path with
  | none => fallback
  | some p =>
      if p = [] then fallback
      else some (host ++ ('/' :: sizeVariant) ++ normalize p)

/-! ## Configuration (src/config/properties.ts)

`Properties` is an object literal; the three `TmdbApi` fields are read
from `process.env`, every other field is a literal constant.  We embed
the object as a structure built from an environment lookup. -/

structure TmdbApiConfig where
  host : Option String
  version : Option String
  ImagesHost : Option String
deriving DecidableEq

structure PropertiesConfig where
  TmdbApi : TmdbApiConfig
  logoPath : String
  defaultAvatarImageSrcPath : String
  movieSlideshowDefaultScrollXOffset : Nat
  castSlideshowDefaultScrollXOffset : Nat
  headerDefaultScrollYOffset : Nat
  carouselDefaultIntervalMillis : Nat
  indexPageRevalidationSeconds : Nat
  movieDetailPageRevalidationSeconds : Nat
  defaultGenresToShowNumber : Nat

/-- The `Properties` object of src/config/properties.ts, built from the
process environment (`process.env` is embedded as a partial map from
variable names to strings). -/
def Properties (env : String → Option String) : PropertiesConfig where
  TmdbApi :=
    { host := env "TMDB_API_HOST"
      version := env "TMDB_API_VERSION"
      ImagesHost := env "NEXT_PUBLIC_TMDB_API_IMAGES_HOST" }
  logoPath := "/logo.svg"
  defaultAvatarImageSrcPath := "/img/default_avatar.jpeg"
  movieSlideshowDefaultScrollXOffset := 800
  castSlideshowDefaultScrollXOffset := 400
  headerDefaultScrollYOffset := 60
  carouselDefaultIntervalMillis := 15000
  indexPageRevalidationSeconds := 3600
  movieDetailPageRevalidationSeconds := 300
  defaultGenresToShowNumber := 2

/-- A JavaScript property value: the fields of the `Properties` object
are strings, numbers, or the nested `TmdbApi` object. -/
inductive PropValue where
  | str (s : String)
  | num (n : Nat)
  | obj (api : TmdbApiConfig)
deriving DecidableEq

/-- Dynamic property access `Properties[key]` on the configuration
object: JavaScript yields `undefined` (here `none`) for a key that is
not among the own properties of the object. -/
def getProp (p : PropertiesConfig) (key : String) : Option PropValue :=
  if key = "TmdbApi" then some (.obj p.TmdbApi)
  else if key = "logoPath" then some (.str p.logoPath)
  else if key = "defaultAvatarImageSrcPath" then
    some (.str p.defaultAvatarImageSrcPath)
  else if key = "movieSlideshowDefaultScrollXOffset" then
    some (.num p.movieSlideshowDefaultScrollXOffset)
  else if key = "castSlideshowDefaultScrollXOffset" then
    some (.num p.castSlideshowDefaultScrollXOffset)
  else if key = "headerDefaultScrollYOffset" then
    some (.num p.headerDefaultScrollYOffset)
  else if key = "carouselDefaultIntervalMillis" then
    some (.num p.carouselDefaultIntervalMillis)
  else if key = "indexPageRevalidationSeconds" then
    some (.num p.indexPageRevalidationSeconds)
  else if key = "movieDetailPageRevalidationSeconds" then
    some (.num p.movieDetailPageRevalidationSeconds)
  else if key = "defaultGenresToShowNumber" then
    some (.num p.defaultGenresToShowNumber)
  else none

/-- `const defaultAvatarImage = Properties.DEFAULT_AVATART_IMG_SRC;` in
the Avatar component: a dynamic read of a property of that name. -/
def defaultAvatarImage (p : PropertiesConfig) : Option PropValue :=
  getProp p "DEFAULT_AVATART_IMG_SRC"

/-- `const { EMPTY_POSTER_IMG_SRC } = Properties;` in MovieDetailBanner:
destructuring reads the property of that name. -/
def EMPTY_POSTER_IMG_SRC (p : PropertiesConfig) : Option PropValue :=
  getProp p "EMPTY_POSTER_IMG_SRC"

/-! ## Resolver call sites in the view components

The static shape of each call of the multimedia-api helpers: whether a
path argument is supplied, which size token (if any) appears in the
argument list, and whether a fallback argument is supplied. -/

structure ResolverCallShape where
  suppliesPath : Bool
  sizeToken : Option String
  suppliesFallback : Bool
deriving DecidableEq

/-- CastCard: `generateImageUrlByPathOrDefault(profile_path, defaultAvatar)`
— two arguments, no size token in the argument list. -/
def castCardImageCall : ResolverCallShape :=
  { suppliesPath := true, sizeToken := none, suppliesFallback := true }

/-- Review: `buildProfilemageUrlOrDefault(avatar_path, "w45", null)`. -/
def reviewAvatarCall : ResolverCallShape :=
  { suppliesPath := true, sizeToken := some "w45", suppliesFallback := true }

/-- MovieDetailBanner: `buildBackdropImageUrlOrDefault(backdrop_path,
"original", null)`. -/
def movieBackdropCall : ResolverCallShape :=
  { suppliesPath := true, sizeToken := some "original",
    suppliesFallback := true }

/-- MovieDetailBanner: `buildPosterImageUrlOrDefault(poster_path, "w500",
EMPTY_POSTER_IMG_SRC)`. -/
def moviePosterCall : ResolverCallShape :=
  { suppliesPath := true, sizeToken := some "w500", suppliesFallback := true }

/-- The three-argument consumer contract of the spec: the call supplies
a nullable path, a size-variant token, and a fallback value. -/
def threeArgumentCall (c : ResolverCallShape) : Prop :=
  c.suppliesPath = true ∧ c.sizeToken.isSome = true ∧ c.suppliesFallback = true

/-! ## MovieInformationHeader (country line) -/

structure ProductionCountry where
  iso_3166_1 : String
  name : String
deriving DecidableEq

/-- `const mainProductionCountryString = countries.length > 0 &&
countries[0].iso_3166_1;` — the JavaScript `&&` yields `false` (here
`none`) when the length guard fails, and the ISO code of the first country
otherwise; the index access is evaluated only under the guard. -/
def mainProductionCountryString (countries : List ProductionCountry) :
    Option String :=
  if h : 0 < countries.length then
    some ((countries.get ⟨0, h⟩).iso_3166_1)
  else none

/-- The JSX child `{mainProductionCountryString && <span>…</span>}`:
the span is emitted only when the computed value is truthy (a falsy
`false` or empty string renders nothing). -/
def countrySpan (countries : List ProductionCountry) : Option String :=
  match mainProductionCountryString countries with
  | none => none
  | some s => if s = "" then none else some s

/-! ## Review (vote badge) -/

/-- The value of the JavaScript expression `rating && <VoteBadge
vote={rating} size="sm" />` in the Review component: `&&` returns its
left operand when that operand is falsy, so a rating of `0` leaks the
number `0` into the child position, an absent (`null`/`undefined`)
rating leaks that nullish value, and a truthy rating produces the
VoteBadge element. -/
inductive ReviewBadgeChild where
  | leakedNumber (n : ℚ)
  | nullish
  | badge (vote : ℚ) (size : String)
deriving DecidableEq

/-- The vote badge child of the review header, as the JavaScript `&&`
evaluates it. -/
def voteBadgeChild (rating : Option ℚ) : ReviewBadgeChild :=
  match rating with
  | none => .nullish
  | some r => if r = 0 then .leakedNumber r else .badge r "sm"

/-- A node React paints for a JSX expression child. -/
inductive RenderedNode where
  | nothing
  | text (s : String)
  | voteBadgeElement (vote : ℚ) (size : String)
deriving DecidableEq

/-- How React renders an expression child: `false`, `null` and
`undefined` render nothing, a number renders as its decimal text, an
element renders as itself. -/
def paintBadgeChild : ReviewBadgeChild → RenderedNode
  | .leakedNumber n => .text (toString n)
  | .nullish => .nothing
  | .badge v sz => .voteBadgeElement v sz

/-- Whether a rendered node contains the VoteBadge element. -/
def hasVoteBadge : RenderedNode → Bool
  | .voteBadgeElement _ _ => true
  | _ => false

/-! ## Process model

The components only ever read the configuration object; we model the
process as a state holding the configuration loaded at startup plus the
log of render outputs, with one step per component render. -/

/-- `src || defaultAvatarImage` in the Avatar component: JavaScript
`||` keeps a truthy left operand and otherwise yields the right one
(an empty string is falsy). -/
def jsOrString (a b : Option String) : Option String :=
  match a with
  | some s => if s = "" then b else some s
  | none => b

/-- Extract the string payload of a dynamic property read (`undefined`
and non-string values give `none`). -/
def propValueString : Option PropValue → Option String
  | some (.str s) => some s
  | _ => none

/-- A render request arriving at one of the embedded components. -/
inductive RenderOp where
  | avatarRender (src : Option String)
  | reviewRender (avatar_path : Option Str) (rating : Option ℚ)
  | movieBannerRender (backdrop_path poster_path : Option Str)
      (countries : List ProductionCountry)
  | castCardRender (profile_path : Option Str)

/-- What one embedded component produces from the configuration and its
per-render inputs. -/
inductive RenderOutput where
  | avatar (src : Option String)
  | review (avatarSrc : Option Str) (b : RenderedNode)
  | movieBanner (backdropSrc posterSrc : Option Str) (country : Option String)
  | castCard (profilePath : Option Str) (fallback : String)

/-- The image host the resolver reads from configuration (absent
environment values are embedded as the empty host). -/
def imagesHostStr (p : PropertiesConfig) : Str :=
  (p.TmdbApi.ImagesHost.getD "").data

/-- One component render: each branch reads the configuration and its
inputs, never writes.  The Review and MovieDetailBanner branches invoke
the resolver with the size tokens and fallbacks of their call sites;
the CastCard branch forwards the path and the configured default avatar
to the two-argument helper. -/
def renderComponent (p : PropertiesConfig) : RenderOp → RenderOutput
  | .avatarRender src =>
      .avatar (jsOrString src (propValueString (defaultAvatarImage p)))
  | .reviewRender ap r =>
      .review (resolve (imagesHostStr p) ap "w45".data none)
        (paintBadgeChild (voteBadgeChild r))
  | .movieBannerRender bp pp cs =>
      .movieBanner (resolve (imagesHostStr p) bp "original".data none)
        (resolve (imagesHostStr p) pp "w500".data
          ((propValueString (EMPTY_POSTER_IMG_SRC p)).map String.data))
        (countrySpan cs)
  | .castCardRender pp => .castCard pp p.defaultAvatarImageSrcPath

structure ProcessState where
  props : PropertiesConfig
  outputs : List RenderOutput

/-- Process start: the configuration is loaded from the environment
once; nothing has rendered yet. -/
def initProcess (env : String → Option String) : ProcessState :=
  { props := Properties env, outputs := [] }

/-- One step of the process: a component renders from the current
configuration; its output is logged. -/
def step (s : ProcessState) (op : RenderOp) : ProcessState :=
  { props := s.props, outputs := renderComponent s.props op :: s.outputs }

/-- Run a sequence of render operations. -/
def run (s : ProcessState) : List RenderOp → ProcessState
  | [] => s
  | op :: ops => run (step s op) ops

/-! ## Theorems -/

/-- Claim C1: for every non-null, non-empty path and every size token,
`resolve` returns `Host + "/" + s + normalize(p)`, is independent of the
fallback argument, and yields the same URL whether or not the path
starts with a slash. -/
theorem resolve_present_path (host p q s : Str) (fb fbAlt : Option Str)
    (hp : p ≠ []) (hq : q.head? ≠ some '/') (hqe : q ≠ []) :
    resolve host (some p) s fb = some (host ++ ('/' :: s) ++ normalize p) ∧
    resolve host (some p) s fb = resolve host (some p) s fbAlt ∧
    resolve host (some ('/' :: q)) s fb = resolve host (some q) s fb := by
  refine ⟨?_, ?_, ?_⟩
  · simp [resolve, hp]
  · simp [resolve, hp]
  · simp [resolve, hqe, normalize, hq]

/-- Witness for C1 at the example path given in the specification. -/
theorem resolve_present_path_witness :
    ("poster1.jpg".data ≠ [] ∧ "abc.jpg".data.head? ≠ some '/' ∧
      "abc.jpg".data ≠ []) ∧
    (resolve "https://img.example.com".data (some "poster1.jpg".data)
        "w500".data none
      = some ("https://img.example.com".data ++ ('/' :: "w500".data) ++
          normalize "poster1.jpg".data) ∧
    resolve "https://img.example.com".data (some "poster1.jpg".data)
        "w500".data none
      = resolve "https://img.example.com".data (some "poster1.jpg".data)
          "w500".data (some "x".data) ∧
    resolve "https://img.example.com".data (some ('/' :: "abc.jpg".data))
        "w500".data none
      = resolve "https://img.example.com".data (some "abc.jpg".data)
          "w500".data none) :=
  ⟨⟨by decide, by decide, by decide⟩,
    resolve_present_path "https://img.example.com".data "poster1.jpg".data
      "abc.jpg".data "w500".data none (some "x".data)
      (by decide) (by decide) (by decide)⟩

/-- Claim C2: when the path is null or undefined, `resolve` returns the
fallback of the caller unchanged for every size token; in particular
`resolve(null, "original", null)` is `null`. -/
theorem resolve_absent_path (host s : Str) (fb : Option Str) :
    resolve host none s fb = fb ∧
    resolve host none "original".data none = none :=
  ⟨rfl, rfl⟩

/-- Claim C3: the resolver is total on its documented domain — for every
path (null, empty, or a well-formed segment) the call completes with a
value: either the fallback or a constructed URL. -/
theorem resolve_never_raises (host : Str) (path : Option Str) (s : Str)
    (fb : Option Str) :
    resolve host path s fb = fb ∨ ∃ u, resolve host path s fb = some u := by
  cases path with
  | none => exact Or.inl rfl
  | some p =>
      by_cases hp : p = []
      · exact Or.inl (by simp [resolve, hp])
      · exact Or.inr ⟨host ++ ('/' :: s) ++ normalize p, by simp [resolve, hp]⟩

/-- Claim C4: the resolver is deterministic — two calls with identical
path, size-variant (even one outside the allowed set), and fallback
arguments return identical output. -/
theorem resolve_deterministic (host : Str) (p₁ p₂ : Option Str)
    (s₁ s₂ : Str) (fb₁ fb₂ : Option Str)
    (hp : p₁ = p₂) (hs : s₁ = s₂) (hfb : fb₁ = fb₂) :
    resolve host p₁ s₁ fb₁ = resolve host p₂ s₂ fb₂ := by
  rw [hp, hs, hfb]

/-- Witness for C4 with a size token outside the allowed set. -/
theorem resolve_deterministic_witness :
    (some "abc.jpg".data = some "abc.jpg".data ∧
      "not-a-size".data = "not-a-size".data ∧
      (none : Option Str) = none) ∧
    resolve "h".data (some "abc.jpg".data) "not-a-size".data none
      = resolve "h".data (some "abc.jpg".data) "not-a-size".data none :=
  ⟨⟨rfl, rfl, rfl⟩,
    resolve_deterministic "h".data (some "abc.jpg".data)
      (some "abc.jpg".data) "not-a-size".data "not-a-size".data none none
      rfl rfl rfl⟩

/-- Counterexample to claim C5: the CastCard call site does not supply a
size-variant token, so it does not conform to the three-argument
consumer contract. -/
theorem castCard_call_lacks_size_token :
    castCardImageCall.sizeToken.isSome = false :=
  rfl

/-- Helper: every resolver call hands back a string or a null — the
result is the fallback the caller passed or a constructed URL. -/
theorem resolve_value_shape (host : Str) (path : Option Str) (s : Str)
    (fb : Option Str) :
    resolve host path s fb = fb ∨ ∃ u, resolve host path s fb = some u := by
  cases path with
  | none => exact Or.inl rfl
  | some p =>
      by_cases hp : p = []
      · exact Or.inl (by simp [resolve, hp])
      · exact Or.inr ⟨host ++ ('/' :: s) ++ normalize p, by simp [resolve, hp]⟩

/-- Claim C5 (amended): the Review and MovieDetailBanner call sites each
supply a path, a size token and a fallback, and each receives back a
string or a null (the value the resolver returns with the size token
and fallback of that site, including the undefined
`EMPTY_POSTER_IMG_SRC` fallback of the poster site); the CastCard site
supplies a path and a fallback but no size token, calling the
two-argument helper `generateImageUrlByPathOrDefault`. -/
theorem resolver_call_shapes :
    threeArgumentCall reviewAvatarCall ∧
    threeArgumentCall movieBackdropCall ∧
    threeArgumentCall moviePosterCall ∧
    (∀ host ap, resolve host ap "w45".data none = none ∨
      ∃ u, resolve host ap "w45".data none = some u) ∧
    (∀ host bp, resolve host bp "original".data none = none ∨
      ∃ u, resolve host bp "original".data none = some u) ∧
    (∀ env host pp,
      resolve host pp "w500".data
          ((propValueString (EMPTY_POSTER_IMG_SRC (Properties env))).map
            String.data) = none ∨
      ∃ u, resolve host pp "w500".data
          ((propValueString (EMPTY_POSTER_IMG_SRC (Properties env))).map
            String.data) = some u) ∧
    castCardImageCall.suppliesPath = true ∧
    castCardImageCall.suppliesFallback = true ∧
    castCardImageCall.sizeToken = none :=
  ⟨⟨rfl, rfl, rfl⟩, ⟨rfl, rfl, rfl⟩, ⟨rfl, rfl, rfl⟩,
    fun host ap => resolve_value_shape host ap "w45".data none,
    fun host bp => resolve_value_shape host bp "original".data none,
    fun _ host pp => resolve_value_shape host pp "w500".data none,
    rfl, rfl, rfl⟩

/-- Helper: running any sequence of render operations never modifies the
configuration component of the process state. -/
theorem run_props_eq (s : ProcessState) (ops : List RenderOp) :
    (run s ops).props = s.props := by
  induction ops generalizing s with
  | nil => rfl
  | cons op ops ih => exact ih (step s op)

/-- Claim C6: the configuration is read from the environment once at
process start and is constant for the process lifetime — at startup, at
every reachable state, and across every single further operation the
Properties object is exactly the one loaded at startup; in particular
the image host read from the environment and the default asset paths
never change. -/
theorem properties_constant_for_process (env : String → Option String)
    (ops : List RenderOp) (op : RenderOp) :
    (initProcess env).props = Properties env ∧
    (run (initProcess env) ops).props = Properties env ∧
    (step (run (initProcess env) ops) op).props = Properties env ∧
    (run (initProcess env) ops).props.TmdbApi.ImagesHost
      = env "NEXT_PUBLIC_TMDB_API_IMAGES_HOST" ∧
    (run (initProcess env) ops).props.defaultAvatarImageSrcPath
      = "/img/default_avatar.jpeg" ∧
    (run (initProcess env) ops).props.logoPath = "/logo.svg" := by
  have h := run_props_eq (initProcess env) ops
  exact ⟨rfl, h, h, by rw [h]; rfl, by rw [h]; rfl, by rw [h]; rfl⟩

/-- Claim C7: in the supplied configuration file the carousel interval
property equals 15000 milliseconds, for every environment. -/
theorem carousel_interval_is_15000 (env : String → Option String) :
    (Properties env).carouselDefaultIntervalMillis = 15000 :=
  rfl

/-- Claim C8: the property names read by the view components are not
defined on the supplied Properties object — `DEFAULT_AVATART_IMG_SRC`
(Avatar) and `EMPTY_POSTER_IMG_SRC` (MovieDetailBanner) both evaluate
to undefined, while the object defines `defaultAvatarImageSrcPath`
instead. -/
theorem view_property_names_missing (env : String → Option String) :
    defaultAvatarImage (Properties env) = none ∧
    EMPTY_POSTER_IMG_SRC (Properties env) = none ∧
    getProp (Properties env) "defaultAvatarImageSrcPath"
      = some (.str "/img/default_avatar.jpeg") :=
  ⟨rfl, rfl, rfl⟩

/-- Claim C9: the first-country access in MovieInformationHeader equals
the safe head access on every list (the guard makes the out-of-bounds
branch unreachable), and the country span is omitted when the list of
production countries is empty. -/
theorem country_access_guarded (cs : List ProductionCountry) :
    mainProductionCountryString cs
      = cs.head?.map ProductionCountry.iso_3166_1 ∧
    countrySpan [] = (none : Option String) := by
  cases cs with
  | nil => exact ⟨rfl, rfl⟩
  | cons c t => exact ⟨by simp [mainProductionCountryString], rfl⟩

/-- Counterexample to claim C10: a rating of 0 is not displayed
identically to an absent rating — the falsy number 0 leaks through the
`&&` and React paints it as the text node "0", while a nullish rating
paints nothing. -/
theorem vote_badge_zero_renders_text :
    paintBadgeChild (voteBadgeChild (some 0))
      = RenderedNode.text (toString (0 : ℚ)) ∧
    paintBadgeChild (voteBadgeChild none) = RenderedNode.nothing ∧
    (paintBadgeChild (voteBadgeChild (some 0))
      = paintBadgeChild (voteBadgeChild none)) = False := by
  refine ⟨?_, rfl, ?_⟩
  · simp [voteBadgeChild, paintBadgeChild]
  · apply eq_false
    intro h
    simp [voteBadgeChild, paintBadgeChild] at h

/-- Claim C10 (amended): for a rating of `0`, `null`, or `undefined` no
VoteBadge element is rendered, and a nonzero rating renders the badge;
but a genuine rating of 0 is not displayed identically to an absent
rating — the leaked falsy 0 renders as the text "0", whereas a nullish
rating renders nothing. -/
theorem vote_badge_falsy_rating (r : ℚ) (hr : r ≠ 0) :
    hasVoteBadge (paintBadgeChild (voteBadgeChild (some 0))) = false ∧
    hasVoteBadge (paintBadgeChild (voteBadgeChild none)) = false ∧
    paintBadgeChild (voteBadgeChild (some 0))
      = RenderedNode.text (toString (0 : ℚ)) ∧
    paintBadgeChild (voteBadgeChild none) = RenderedNode.nothing ∧
    paintBadgeChild (voteBadgeChild (some r))
      = RenderedNode.voteBadgeElement r "sm" := by
  refine ⟨?_, rfl, ?_, rfl, ?_⟩
  · simp [voteBadgeChild, paintBadgeChild, hasVoteBadge]
  · simp [voteBadgeChild, paintBadgeChild]
  · simp [voteBadgeChild, paintBadgeChild, hr]

/-- Witness for the amended C10 at the concrete rating 7. -/
theorem vote_badge_falsy_rating_witness :
    ((7 : ℚ) ≠ 0) ∧
    (hasVoteBadge (paintBadgeChild (voteBadgeChild (some 0))) = false ∧
      hasVoteBadge (paintBadgeChild (voteBadgeChild none)) = false ∧
      paintBadgeChild (voteBadgeChild (some 0))
        = RenderedNode.text (toString (0 : ℚ)) ∧
      paintBadgeChild (voteBadgeChild none) = RenderedNode.nothing ∧
      paintBadgeChild (voteBadgeChild (some 7))
        = RenderedNode.voteBadgeElement 7 "sm") :=
  ⟨by norm_num, vote_badge_falsy_rating 7 (by norm_num)⟩

end Tmdb
